import Mathlib

/-!
Verification development for the flight-departure monitoring pipeline
(monitor.py, database.py, request.py, models.py).

The SQLite tables `flight_snapshots` and `flight_changes` are embedded as
lists of row structures together with the AUTOINCREMENT counters.  SQLite's
`JULIANDAY` conversion of ISO timestamp strings is kept abstract as a
parameter `jd : String → Option ℚ` (`none` models the SQL NULL produced by
an unparseable string; `NULL > 0.00001` is falsy in SQLite, exactly as a
Python `if` treats the fetched `None`).  Python dictionary lookups with
`.get` are embedded as `Option` fields, and Python truthiness of an
optional string (`None` and `""` are falsy) as `truthy`.
-/

namespace FlightMonitor

/-- Python truthiness of an optional string: `None` and the empty string
are falsy, every other string is truthy. -/
def truthy : Option String → Bool
  | none => false
  | some s => s != ""

/-- Python `str(...)` as applied by `save_change` to `previous_value` /
`new_value`: `str(None) = "None"`, a string is unchanged. -/
def strPy : Option String → String
  | none => "None"
  | some s => s

/-- A row of the `flight_snapshots` table (database.py `create_table`).
`snapshot_id` is the AUTOINCREMENT primary key; `is_operator` is stored as
an integer 0/1 (NULL when absent). -/
structure SnapshotRow where
  snapshot_id : Nat
  unique_flight_id : String
  cycle_timestamp : String
  workspace_timestamp : String
  flight_number : Option String
  airline_iata : Option String
  airline_name : Option String
  scheduled_departure_utc : Option String
  estimated_departure_utc : Option String
  departure_terminal : Option String
  departure_gate : Option String
  status : Option String
  destination_iata : Option String
  destination_name : Option String
  codeshare_status : Option String
  is_operator : Option Nat
  aircraft_model : Option String
  aircraft_reg : Option String
  deriving DecidableEq, Repr

/-- A row of the `flight_changes` table (database.py `create_table`).
`previous_value` and `new_value` are the `str(...)`-converted texts written
by `save_change`. -/
structure ChangeRow where
  change_id : Nat
  unique_flight_id : String
  change_detected_cycle_timestamp : String
  previous_cycle_timestamp : String
  attribute_changed : String
  previous_value : String
  new_value : String
  change_logged_at : String
  deriving DecidableEq, Repr

/-- The change dictionary built by `detect_changes` and passed to
`save_change` (monitor.py).  `previous_value` / `new_value` are the raw
optional strings before `str(...)` conversion. -/
structure ChangeDict where
  unique_flight_id : String
  change_detected_cycle_timestamp : String
  previous_cycle_timestamp : String
  attribute_changed : String
  previous_value : Option String
  new_value : Option String
  deriving DecidableEq, Repr

/-- A flight record dictionary as handed to `detect_changes` and
`save_snapshot` (the dictionaries produced by `fetch_flight_data`).
Missing keys and `None` values are both `none`. -/
structure FlightRecord where
  unique_flight_id : Option String
  flight_number : Option String
  airline_iata : Option String
  airline_name : Option String
  scheduled_departure_utc : Option String
  estimated_departure_utc : Option String
  departure_terminal : Option String
  departure_gate : Option String
  status : Option String
  destination_iata : Option String
  destination_name : Option String
  codeshare_status : Option String
  is_operator : Option Bool
  aircraft_model : Option String
  aircraft_reg : Option String
  deriving DecidableEq, Repr

/-- The SQLite database state: both monitor tables and their
AUTOINCREMENT counters. -/
structure DB where
  snapshots : List SnapshotRow
  flight_changes : List ChangeRow
  nextSnapshotId : Nat
  nextChangeId : Nat
  deriving DecidableEq, Repr

/-- Fold step realising `ORDER BY snapshot_id DESC LIMIT 1`: keep the row
with the larger `snapshot_id`. -/
def pickLatest : Option SnapshotRow → SnapshotRow → Option SnapshotRow
  | none, r => some r
  | some b, r => if b.snapshot_id < r.snapshot_id then some r else some b

/-- The query `SELECT * FROM flight_snapshots WHERE unique_flight_id = ?
ORDER BY snapshot_id DESC LIMIT 1` of `detect_changes`. -/
def latestSnapshotFor (db : DB) (fid : String) : Option SnapshotRow :=
  (db.snapshots.filter (fun r => r.unique_flight_id == fid)).foldl pickLatest none

/-- The dedup query `SELECT change_id FROM flight_changes WHERE
unique_flight_id = ? AND attribute_changed = ? AND new_value = ? ... LIMIT 1`
returned a row.  A `none` bound parameter is the SQL NULL, and
`new_value = NULL` is never true, so the lookup then finds nothing. -/
def dedupFound (db : DB) (fid attr : String) (newVal : Option String) : Bool :=
  match newVal with
  | none => false
  | some v =>
      db.flight_changes.any
        (fun c => c.unique_flight_id == fid && c.attribute_changed == attr && c.new_value == v)

/-- Subtraction of rationals written through `mkRat` so that the kernel
can evaluate it (`Rat.sub` is irreducible); `subQ_eq` identifies it with
`a - b`. -/
def subQ (a b : ℚ) : ℚ := mkRat (a.num * b.den - b.num * a.den) (a.den * b.den)

/-- Absolute value of a rational, kernel-evaluable; `absQ_eq` identifies
it with `|q|`. -/
def absQ (q : ℚ) : ℚ := if q < 0 then q.neg else q

/-- The SQL literal `0.00001` of the JULIANDAY comparison. -/
def jdThreshold : ℚ := mkRat 1 100000

/-- The query `SELECT ABS(JULIANDAY(:current) - JULIANDAY(:previous)) >
0.00001`: true when both strings parse and the julian-day values differ by
more than `0.00001` days; an unparseable string yields NULL, which is
falsy. -/
def julianGt (jd : String → Option ℚ) (cur prev : String) : Bool :=
  match jd cur, jd prev with
  | some a, some b => decide (jdThreshold < absQ (subQ a b))
  | _, _ => false

/-- One timestamp-attribute block of `detect_changes` (blocks 1 and 2):
compare with JULIANDAY when both values are truthy, then dedup, then emit
the change dictionary. -/
def timeAttrChanges (jd : String → Option ℚ) (db : DB) (fid attr : String)
    (prevVal curVal : Option String) (prevCycle ts : String) : List ChangeDict :=
  if truthy prevVal && truthy curVal then
    if julianGt jd (curVal.getD "") (prevVal.getD "") then
      if dedupFound db fid attr curVal then []
      else [⟨fid, ts, prevCycle, attr, prevVal, curVal⟩]
    else []
  else []

/-- The gate normalisation of `detect_changes` (block 3):
`gate if gate and gate.strip() else None`. -/
def normGate : Option String → Option String
  | none => none
  | some s => if s != "" && s.trim != "" then some s else none

/-- The gate block of `detect_changes`: compare the normalised gates,
dedup on the raw current gate, emit the change carrying the raw values. -/
def gateChanges (db : DB) (fid : String) (previous : SnapshotRow)
    (cur : FlightRecord) (ts : String) : List ChangeDict :=
  if normGate previous.departure_gate ≠ normGate cur.departure_gate then
    if dedupFound db fid "departure_gate" cur.departure_gate then []
    else
      [⟨fid, ts, previous.cycle_timestamp, "departure_gate",
        previous.departure_gate, cur.departure_gate⟩]
  else []

/-- `detect_changes` of monitor.py: bail out on a falsy
`unique_flight_id`, fetch the most recent prior snapshot, bail out when
there is none, then run the scheduled, estimated and gate blocks. -/
def detect_changes (jd : String → Option ℚ) (cur : FlightRecord) (ts : String)
    (db : DB) : List ChangeDict :=
  if !(truthy cur.unique_flight_id) then []
  else
    let fid := cur.unique_flight_id.getD ""
    match latestSnapshotFor db fid with
    | none => []
    | some previous =>
        timeAttrChanges jd db fid "scheduled_departure_utc"
            previous.scheduled_departure_utc cur.scheduled_departure_utc
            previous.cycle_timestamp ts
          ++ timeAttrChanges jd db fid "estimated_departure_utc"
              previous.estimated_departure_utc cur.estimated_departure_utc
              previous.cycle_timestamp ts
          ++ gateChanges db fid previous cur ts

/-- The row built by `save_snapshot`: every table column is filled from
the record dictionary (`None` for missing keys), `cycle_timestamp` and
`workspace_timestamp` are both set to the cycle timestamp, and
`is_operator` is converted to 0/1. -/
def snapshotRowOf (sid : Nat) (fid : String) (f : FlightRecord) (ts : String) : SnapshotRow :=
  { snapshot_id := sid
    unique_flight_id := fid
    cycle_timestamp := ts
    workspace_timestamp := ts
    flight_number := f.flight_number
    airline_iata := f.airline_iata
    airline_name := f.airline_name
    scheduled_departure_utc := f.scheduled_departure_utc
    estimated_departure_utc := f.estimated_departure_utc
    departure_terminal := f.departure_terminal
    departure_gate := f.departure_gate
    status := f.status
    destination_iata := f.destination_iata
    destination_name := f.destination_name
    codeshare_status := f.codeshare_status
    is_operator := f.is_operator.map (fun b => if b then 1 else 0)
    aircraft_model := f.aircraft_model
    aircraft_reg := f.aircraft_reg }

/-- `save_snapshot` of monitor.py: `INSERT INTO flight_snapshots ...`.
A record without a `unique_flight_id` violates the NOT NULL constraint;
the `sqlite3.Error` is caught and logged, so the database is unchanged. -/
def save_snapshot (db : DB) (f : FlightRecord) (ts : String) : DB :=
  match f.unique_flight_id with
  | none => db
  | some fid =>
      { db with
        snapshots := db.snapshots ++ [snapshotRowOf db.nextSnapshotId fid f ts]
        nextSnapshotId := db.nextSnapshotId + 1 }

/-- The row written by `save_change`: `str(...)` is applied to the
previous and new values; `logged_at` is the `datetime.now(timezone.utc)`
wall-clock string. -/
def changeRowOf (cid : Nat) (ch : ChangeDict) (logged_at : String) : ChangeRow :=
  { change_id := cid
    unique_flight_id := ch.unique_flight_id
    change_detected_cycle_timestamp := ch.change_detected_cycle_timestamp
    previous_cycle_timestamp := ch.previous_cycle_timestamp
    attribute_changed := ch.attribute_changed
    previous_value := strPy ch.previous_value
    new_value := strPy ch.new_value
    change_logged_at := logged_at }

/-- `save_change` of monitor.py: `INSERT INTO flight_changes ...`. -/
def save_change (db : DB) (ch : ChangeDict) (logged_at : String) : DB :=
  { db with
    flight_changes := db.flight_changes ++ [changeRowOf db.nextChangeId ch logged_at]
    nextChangeId := db.nextChangeId + 1 }

/-- One iteration of the `process_flight_data` loop: skip a record with a
falsy `unique_flight_id`; otherwise detect changes, save each of them, and
always save the new snapshot, adding the number of saved changes to the
running total. -/
def processFlightStep (jd : String → Option ℚ) (logged_at ts : String)
    (acc : DB × Nat) (flight : FlightRecord) : DB × Nat :=
  if !(truthy flight.unique_flight_id) then acc
  else
    let changes := detect_changes jd flight ts acc.1
    let db1 := changes.foldl (fun d c => save_change d c logged_at) acc.1
    let db2 := save_snapshot db1 flight ts
    (db2, acc.2 + changes.length)

/-- `process_flight_data` of monitor.py: fold the per-record processing
over the fetched flight list, returning the database and the number of
change records saved. -/
def process_flight_data (jd : String → Option ℚ) (logged_at : String) (db : DB)
    (flights : List FlightRecord) (ts : String) : DB × Nat :=
  flights.foldl (processFlightStep jd logged_at ts) (db, 0)

/-- `run_monitor_cycle` of monitor.py: an empty fetch ends the cycle with
0 changes; otherwise the flights are processed and the transaction is
committed — on a commit error everything is rolled back to the pre-cycle
state and 0 is returned. -/
def run_monitor_cycle (jd : String → Option ℚ) (logged_at : String) (db : DB)
    (flights : List FlightRecord) (cycle_ts : String) (commitOk : Bool) : DB × Nat :=
  if flights.isEmpty then (db, 0)
  else
    let r := process_flight_data jd logged_at db flights cycle_ts
    if commitOk then r else (db, 0)

/-! ### Statement-level model of `detect_changes`

`detect_changes` only ever calls `cursor.execute` on SELECT statements.
To make that a theorem rather than a typing convention, each statement it
executes is modelled as a state transformer `DB → DB × α`; the SELECTs
return the database unchanged together with their result.  The claim that
`detect_changes` never writes is then the statement that the composition
of its statement sequence is the identity on the database component. -/

/-- The prior-snapshot SELECT as a database operation. -/
def queryLatestSnapshot (fid : String) (db : DB) : DB × Option SnapshotRow :=
  (db, latestSnapshotFor db fid)

/-- The JULIANDAY comparison SELECT as a database operation. -/
def queryJulianGt (jd : String → Option ℚ) (cur prev : String) (db : DB) : DB × Bool :=
  (db, julianGt jd cur prev)

/-- The dedup SELECT as a database operation. -/
def queryDedup (fid attr : String) (newVal : Option String) (db : DB) : DB × Bool :=
  (db, dedupFound db fid attr newVal)

/-- One timestamp-attribute block of `detect_changes` at the statement
level: the JULIANDAY SELECT, then (when a difference is seen) the dedup
SELECT. -/
def timeAttrOp (jd : String → Option ℚ) (fid attr : String)
    (prevVal curVal : Option String) (prevCycle ts : String) (db : DB) :
    DB × List ChangeDict :=
  if truthy prevVal && truthy curVal then
    match queryJulianGt jd (curVal.getD "") (prevVal.getD "") db with
    | (db1, changed) =>
      if changed then
        match queryDedup fid attr curVal db1 with
        | (db2, dup) =>
          if dup then (db2, [])
          else (db2, [⟨fid, ts, prevCycle, attr, prevVal, curVal⟩])
      else (db1, [])
  else (db, [])

/-- The gate block of `detect_changes` at the statement level: only the
dedup SELECT touches the database. -/
def gateOp (fid : String) (previous : SnapshotRow) (cur : FlightRecord)
    (ts : String) (db : DB) : DB × List ChangeDict :=
  if normGate previous.departure_gate ≠ normGate cur.departure_gate then
    match queryDedup fid "departure_gate" cur.departure_gate db with
    | (db1, dup) =>
      if dup then (db1, [])
      else
        (db1, [⟨fid, ts, previous.cycle_timestamp, "departure_gate",
                previous.departure_gate, cur.departure_gate⟩])
  else (db, [])

/-- `detect_changes` as the sequence of SQL statements it executes,
threading the database through every statement. -/
def detect_changesOp (jd : String → Option ℚ) (cur : FlightRecord) (ts : String)
    (db : DB) : DB × List ChangeDict :=
  if !(truthy cur.unique_flight_id) then (db, [])
  else
    let fid := cur.unique_flight_id.getD ""
    match queryLatestSnapshot fid db with
    | (db0, none) => (db0, [])
    | (db0, some previous) =>
        match timeAttrOp jd fid "scheduled_departure_utc"
            previous.scheduled_departure_utc cur.scheduled_departure_utc
            previous.cycle_timestamp ts db0 with
        | (db1, cs) =>
          match timeAttrOp jd fid "estimated_departure_utc"
              previous.estimated_departure_utc cur.estimated_departure_utc
              previous.cycle_timestamp ts db1 with
          | (db2, ce) =>
            match gateOp fid previous cur ts db2 with
            | (db3, cg) => (db3, cs ++ ce ++ cg)

/-! ### The request-side record builder (request.py, models.py) -/

/-- models.py `TimeInfo`; the `utc` datetime is kept abstract as a string. -/
structure TimeInfo where
  utc : Option String
  localTime : Option String
  deriving DecidableEq, Repr

/-- models.py `AirportInfo`. -/
structure AirportInfo where
  icao : Option String
  iata : Option String
  name : Option String
  timeZone : Option String
  deriving DecidableEq, Repr

/-- models.py `MovementInfo` (the fields `save_data` reads). -/
structure MovementInfo where
  airport : Option AirportInfo
  scheduledTime : Option TimeInfo
  revisedTime : Option TimeInfo
  terminal : Option String
  gate : Option String
  deriving DecidableEq, Repr

/-- models.py `AircraftInfo`. -/
structure AircraftInfo where
  reg : Option String
  model : Option String
  deriving DecidableEq, Repr

/-- models.py `AirlineInfo`. -/
structure AirlineInfo where
  name : Option String
  iata : Option String
  icao : Option String
  deriving DecidableEq, Repr

/-- models.py `Departure` (the fields `save_data` reads). -/
structure Departure where
  movement : Option MovementInfo
  number : Option String
  status : Option String
  codeshareStatus : Option String
  aircraft : Option AircraftInfo
  airline : Option AirlineInfo
  deriving DecidableEq, Repr

/-- The record dictionary `GetData.save_data` builds per departure. -/
structure RequestRecord where
  workspace_timestamp : String
  flight_number : Option String
  airline_iata : Option String
  airline_name : Option String
  scheduled_departure_utc : Option String
  estimated_departure_utc : Option String
  departure_terminal : Option String
  departure_gate : Option String
  status : Option String
  destination_iata : Option String
  destination_name : Option String
  codeshare_status : Option String
  is_operator : Bool
  aircraft_model : Option String
  aircraft_reg : Option String
  unique_flight_id : String
  deriving DecidableEq, Repr

/-- Python `x or d` on an optional string as used in the
`unique_flight_id` f-string: a `None` or empty value falls back to the
default. -/
def pyOrStr (v : Option String) (d : String) : String :=
  match v with
  | none => d
  | some s => if s = "" then d else s

/-- The per-departure record construction of `GetData.save_data`
(request.py lines 100-138).  `strfYmd` abstracts
`datetime.strftime('%Y%m%d')`; `ws` is the shared workspace timestamp. -/
def save_data_record (strfYmd : String → String) (ws : String) (flight : Departure) :
    RequestRecord :=
  let movement := flight.movement
  let airline := flight.airline
  let aircraft := flight.aircraft
  let scheduled_utc := (movement.bind (fun m => m.scheduledTime)).bind (fun t => t.utc)
  let estimated_utc :=
    match movement.bind (fun m => m.revisedTime) with
    | some rt => rt.utc
    | none => scheduled_utc
  let dest_iata := (movement.bind (fun m => m.airport)).bind (fun a => a.iata)
  { workspace_timestamp := ws
    flight_number := flight.number
    airline_iata := airline.bind (fun a => a.iata)
    airline_name := airline.bind (fun a => a.name)
    scheduled_departure_utc := scheduled_utc
    estimated_departure_utc := estimated_utc
    departure_terminal := movement.bind (fun m => m.terminal)
    departure_gate := movement.bind (fun m => m.gate)
    status := flight.status
    destination_iata := dest_iata
    destination_name := (movement.bind (fun m => m.airport)).bind (fun a => a.name)
    codeshare_status := flight.codeshareStatus
    is_operator := flight.codeshareStatus == some "IsOperator"
    aircraft_model := aircraft.bind (fun a => a.model)
    aircraft_reg := aircraft.bind (fun a => a.reg)
    unique_flight_id :=
      pyOrStr (airline.bind (fun a => a.iata)) "UNK" ++ "-" ++
        pyOrStr flight.number "000" ++ "-" ++
        (match scheduled_utc with
         | some d => strfYmd d
         | none => "NODATE") ++ "-" ++
        pyOrStr dest_iata "UNK" }

/-! ### Helper lemmas -/

theorem subQ_eq (a b : ℚ) : subQ a b = a - b := by
  unfold subQ
  rw [Rat.mkRat_eq_divInt]
  have hb : ((b.den : ℤ)) ≠ 0 := by exact_mod_cast b.den_ne_zero
  have ha : ((a.den : ℤ)) ≠ 0 := by exact_mod_cast a.den_ne_zero
  rw [Nat.cast_mul]
  rw [← Rat.divInt_sub_divInt _ _ ha hb, Rat.num_divInt_den, Rat.num_divInt_den]

theorem absQ_eq (q : ℚ) : absQ q = |q| := by
  unfold absQ
  have hneg : q.neg = -q := rfl
  rw [hneg]
  split
  · exact (abs_of_neg (by assumption)).symm
  · exact (abs_of_nonneg (le_of_not_lt (by assumption))).symm

theorem jdThreshold_eq : jdThreshold = 1/100000 := by
  unfold jdThreshold
  rw [Rat.mkRat_eq_divInt, Rat.divInt_eq_div]
  norm_num

/-- `julianGt` holds exactly when both strings parse to julian-day values
whose absolute difference exceeds `0.00001`. -/
theorem julianGt_iff (jd : String → Option ℚ) (c p : String) :
    julianGt jd c p = true ↔
      ∃ a b, jd c = some a ∧ jd p = some b ∧ (1 : ℚ)/100000 < |a - b| := by
  unfold julianGt
  cases hc : jd c with
  | none => simp
  | some a =>
    cases hp : jd p with
    | none => simp
    | some b => simp [subQ_eq, absQ_eq, jdThreshold_eq]

theorem pickLatest_le (acc : Option SnapshotRow) (x : SnapshotRow) :
    ∃ c, pickLatest acc x = some c ∧ x.snapshot_id ≤ c.snapshot_id ∧
      (∀ b, acc = some b → b.snapshot_id ≤ c.snapshot_id) := by
  cases acc with
  | none => exact ⟨x, rfl, le_refl _, by intro b h; cases h⟩
  | some b =>
    by_cases h : b.snapshot_id < x.snapshot_id
    · refine ⟨x, by simp [pickLatest, h], le_refl _, ?_⟩
      intro b2 hb2; cases hb2; omega
    · refine ⟨b, by simp [pickLatest, h], by omega, ?_⟩
      intro b2 hb2; cases hb2; omega

theorem foldl_pickLatest_spec (l : List SnapshotRow) :
    ∀ (acc : Option SnapshotRow) (r : SnapshotRow),
      l.foldl pickLatest acc = some r →
        (acc = some r ∨ r ∈ l) ∧
        (∀ s ∈ l, s.snapshot_id ≤ r.snapshot_id) ∧
        (∀ b, acc = some b → b.snapshot_id ≤ r.snapshot_id) := by
  induction l with
  | nil => intro acc r h; simp at h; simp [h]
  | cons x xs ih =>
    intro acc r h
    simp only [List.foldl_cons] at h
    obtain ⟨hmem, hmax, hacc⟩ := ih (pickLatest acc x) r h
    obtain ⟨c, hc, hxc, haccc⟩ := pickLatest_le acc x
    have hcr : c.snapshot_id ≤ r.snapshot_id := hacc c hc
    refine ⟨?_, ?_, ?_⟩
    · rcases hmem with hm | hm
      · cases acc with
        | none =>
          right
          simp only [pickLatest] at hm
          have hxr := Option.some.inj hm
          subst hxr
          exact List.mem_cons_self _ _
        | some b =>
          simp only [pickLatest] at hm
          split at hm
          · right
            have hxr := Option.some.inj hm
            subst hxr
            exact List.mem_cons_self _ _
          · left; exact hm
      · right; exact List.mem_cons_of_mem _ hm
    · intro s hs
      rcases List.mem_cons.mp hs with rfl | hs2
      · omega
      · exact hmax s hs2
    · intro b hb
      have := haccc b hb
      omega

/-- The prior-snapshot query returns a row of the table with the queried
flight identity and the maximal `snapshot_id` among such rows. -/
theorem latestSnapshotFor_spec (db : DB) (fid : String) (r : SnapshotRow)
    (h : latestSnapshotFor db fid = some r) :
    r ∈ db.snapshots ∧ r.unique_flight_id = fid ∧
      ∀ s ∈ db.snapshots, s.unique_flight_id = fid → s.snapshot_id ≤ r.snapshot_id := by
  unfold latestSnapshotFor at h
  obtain ⟨hmem, hmax, _⟩ := foldl_pickLatest_spec _ _ _ h
  rcases hmem with hm | hm
  · simp at hm
  · have hf := List.mem_filter.mp hm
    refine ⟨hf.1, by simpa using hf.2, ?_⟩
    intro s hs hsf
    exact hmax s (List.mem_filter.mpr ⟨hs, by simpa using hsf⟩)

/-- If the queried flight identity appears nowhere in the table, the
prior-snapshot query returns nothing. -/
theorem latestSnapshotFor_none (db : DB) (fid : String)
    (h : ∀ s ∈ db.snapshots, s.unique_flight_id ≠ fid) :
    latestSnapshotFor db fid = none := by
  unfold latestSnapshotFor
  have : db.snapshots.filter (fun r => r.unique_flight_id == fid) = [] := by
    rw [List.filter_eq_nil_iff]
    intro a ha
    simpa using h a ha
  rw [this]
  rfl

/-- The dedup SELECT finds a row exactly when the bound value is non-NULL
and some recorded change for that flight and attribute carries it as
`new_value`. -/
theorem dedupFound_iff (db : DB) (fid attr : String) (w : Option String) :
    dedupFound db fid attr w = true ↔
      ∃ v, w = some v ∧ ∃ c ∈ db.flight_changes,
        c.unique_flight_id = fid ∧ c.attribute_changed = attr ∧ c.new_value = v := by
  unfold dedupFound
  cases w with
  | none => simp
  | some v =>
    rw [List.any_eq_true]
    constructor
    · rintro ⟨c, hc, hpred⟩
      simp only [Bool.and_eq_true, beq_iff_eq] at hpred
      exact ⟨v, rfl, c, hc, hpred.1.1, hpred.1.2, hpred.2⟩
    · rintro ⟨v2, hv2, c, hc, h1, h2, h3⟩
      cases hv2
      exact ⟨c, hc, by simp [h1, h2, h3]⟩

/-- Membership characterisation of a timestamp block: a change is emitted
exactly when both values are truthy, JULIANDAY sees a difference, and the
dedup lookup finds nothing; the emitted dictionary carries the raw
values. -/
theorem mem_timeAttrChanges (jd : String → Option ℚ) (db : DB) (fid attr : String)
    (pv cv : Option String) (pc ts : String) (ch : ChangeDict) :
    ch ∈ timeAttrChanges jd db fid attr pv cv pc ts ↔
      truthy pv = true ∧ truthy cv = true ∧
      julianGt jd (cv.getD "") (pv.getD "") = true ∧
      dedupFound db fid attr cv = false ∧
      ch = ⟨fid, ts, pc, attr, pv, cv⟩ := by
  unfold timeAttrChanges
  split
  · split
    · split
      · simp_all
      · simp_all [Bool.not_eq_true]
    · simp_all
  · constructor
    · intro h; simp at h
    · rintro ⟨h1, h2, -⟩
      simp_all

/-- The same characterisation at the statement level. -/
theorem timeAttrOp_eq (jd : String → Option ℚ) (fid attr : String)
    (pv cv : Option String) (pc ts : String) (db : DB) :
    timeAttrOp jd fid attr pv cv pc ts db =
      (db, timeAttrChanges jd db fid attr pv cv pc ts) := by
  unfold timeAttrOp timeAttrChanges queryJulianGt queryDedup
  dsimp only
  split_ifs <;> rfl

/-- Membership characterisation of the gate block. -/
theorem mem_gateChanges (db : DB) (fid : String) (previous : SnapshotRow)
    (cur : FlightRecord) (ts : String) (ch : ChangeDict) :
    ch ∈ gateChanges db fid previous cur ts ↔
      normGate previous.departure_gate ≠ normGate cur.departure_gate ∧
      dedupFound db fid "departure_gate" cur.departure_gate = false ∧
      ch = ⟨fid, ts, previous.cycle_timestamp, "departure_gate",
            previous.departure_gate, cur.departure_gate⟩ := by
  unfold gateChanges
  split
  · split
    · simp_all
    · simp_all [Bool.not_eq_true]
  · constructor
    · intro h; simp at h
    · rintro ⟨h1, -⟩
      simp_all

/-- The gate block at the statement level. -/
theorem gateOp_eq (fid : String) (previous : SnapshotRow) (cur : FlightRecord)
    (ts : String) (db : DB) :
    gateOp fid previous cur ts db = (db, gateChanges db fid previous cur ts) := by
  unfold gateOp gateChanges queryDedup
  dsimp only
  split_ifs <;> rfl

/-- `detect_changes` under a truthy flight identity with a prior snapshot
is the concatenation of the three attribute blocks. -/
theorem detect_changes_blocks (jd : String → Option ℚ) (cur : FlightRecord)
    (ts : String) (db : DB) (fid : String) (previous : SnapshotRow)
    (hfid : cur.unique_flight_id = some fid) (hne : fid ≠ "")
    (hprev : latestSnapshotFor db fid = some previous) :
    detect_changes jd cur ts db =
      timeAttrChanges jd db fid "scheduled_departure_utc"
          previous.scheduled_departure_utc cur.scheduled_departure_utc
          previous.cycle_timestamp ts
        ++ timeAttrChanges jd db fid "estimated_departure_utc"
            previous.estimated_departure_utc cur.estimated_departure_utc
            previous.cycle_timestamp ts
        ++ gateChanges db fid previous cur ts := by
  unfold detect_changes
  rw [hfid]
  have ht : truthy (some fid) = true := by simpa [truthy] using hne
  simp only [ht, Bool.not_true, Bool.false_eq_true, if_false, Option.getD_some]
  rw [hprev]

/-- Inversion for `detect_changes`: any emitted change comes from one of
the three blocks, under a truthy identity and an existing prior
snapshot. -/
theorem detect_changes_mem_inv (jd : String → Option ℚ) (cur : FlightRecord)
    (ts : String) (db : DB) (ch : ChangeDict)
    (h : ch ∈ detect_changes jd cur ts db) :
    ∃ fid previous, cur.unique_flight_id = some fid ∧ fid ≠ "" ∧
      latestSnapshotFor db fid = some previous ∧
      (ch ∈ timeAttrChanges jd db fid "scheduled_departure_utc"
          previous.scheduled_departure_utc cur.scheduled_departure_utc
          previous.cycle_timestamp ts ∨
       ch ∈ timeAttrChanges jd db fid "estimated_departure_utc"
          previous.estimated_departure_utc cur.estimated_departure_utc
          previous.cycle_timestamp ts ∨
       ch ∈ gateChanges db fid previous cur ts) := by
  unfold detect_changes at h
  cases hfid : cur.unique_flight_id with
  | none => rw [hfid] at h; simp [truthy] at h
  | some fid =>
    rw [hfid] at h
    by_cases hne : fid = ""
    · subst hne; simp [truthy] at h
    · have ht : truthy (some fid) = true := by simpa [truthy] using hne
      simp only [ht, Bool.not_true, Bool.false_eq_true, if_false, Option.getD_some] at h
      cases hprev : latestSnapshotFor db fid with
      | none => rw [hprev] at h; simp at h
      | some previous =>
        rw [hprev] at h
        refine ⟨fid, previous, rfl, hne, hprev, ?_⟩
        rcases List.mem_append.mp h with h1 | h2
        · rcases List.mem_append.mp h1 with h11 | h12
          · exact Or.inl h11
          · exact Or.inr (Or.inl h12)
        · exact Or.inr (Or.inr h2)

/-- `detect_changesOp` threads the database through its SELECT sequence
without changing it, and its result is `detect_changes`. -/
theorem detect_changesOp_eq (jd : String → Option ℚ) (cur : FlightRecord)
    (ts : String) (db : DB) :
    detect_changesOp jd cur ts db = (db, detect_changes jd cur ts db) := by
  unfold detect_changesOp detect_changes queryLatestSnapshot
  cases h : truthy cur.unique_flight_id with
  | false => simp [h]
  | true =>
    simp only [h, Bool.not_true, Bool.false_eq_true, if_false]
    cases hl : latestSnapshotFor db (cur.unique_flight_id.getD "") with
    | none => rfl
    | some previous => simp only [timeAttrOp_eq, gateOp_eq]

theorem save_snapshot_changes (db : DB) (f : FlightRecord) (ts : String) :
    (save_snapshot db f ts).flight_changes = db.flight_changes := by
  unfold save_snapshot
  cases f.unique_flight_id <;> rfl

theorem save_snapshot_append (db : DB) (f : FlightRecord) (ts : String) :
    ∃ t, (save_snapshot db f ts).snapshots = db.snapshots ++ t := by
  unfold save_snapshot
  cases f.unique_flight_id with
  | none => exact ⟨[], by simp⟩
  | some fid => exact ⟨_, rfl⟩

theorem foldl_save_change_snapshots (la : String) (changes : List ChangeDict) :
    ∀ db : DB,
      (changes.foldl (fun d c => save_change d c la) db).snapshots = db.snapshots := by
  induction changes with
  | nil => intro db; rfl
  | cons c cs ih => intro db; rw [List.foldl_cons, ih]; rfl

theorem foldl_save_change_len (la : String) (changes : List ChangeDict) :
    ∀ db : DB,
      (changes.foldl (fun d c => save_change d c la) db).flight_changes.length
        = db.flight_changes.length + changes.length := by
  induction changes with
  | nil => intro db; rfl
  | cons c cs ih =>
    intro db
    rw [List.foldl_cons, ih]
    simp [save_change]
    omega

theorem foldl_save_change_append (la : String) (changes : List ChangeDict) :
    ∀ db : DB, ∃ t,
      (changes.foldl (fun d c => save_change d c la) db).flight_changes
        = db.flight_changes ++ t := by
  induction changes with
  | nil => intro db; exact ⟨[], by simp⟩
  | cons c cs ih =>
    intro db
    obtain ⟨t, ht⟩ := ih (save_change db c la)
    refine ⟨changeRowOf db.nextChangeId c la :: t, ?_⟩
    rw [List.foldl_cons, ht]
    simp [save_change]

/-- The snapshot row with its AUTOINCREMENT key forgotten, for stating
which rows a cycle appends independently of the key values. -/
def stripSnap (r : SnapshotRow) : SnapshotRow := { r with snapshot_id := 0 }

theorem process_flight_data_spec (jd : String → Option ℚ) (la ts : String)
    (flights : List FlightRecord) :
    ∀ (db : DB) (n : Nat),
      (flights.foldl (processFlightStep jd la ts) (db, n)).1.snapshots.map stripSnap
          = db.snapshots.map stripSnap
            ++ (flights.filter (fun f => truthy f.unique_flight_id)).map
                 (fun f => stripSnap (snapshotRowOf 0 (f.unique_flight_id.getD "") f ts)) ∧
      (flights.foldl (processFlightStep jd la ts) (db, n)).2
            + db.flight_changes.length
        = n + (flights.foldl (processFlightStep jd la ts) (db, n)).1.flight_changes.length := by
  induction flights with
  | nil => intro db n; simp
  | cons f fs ih =>
    intro db n
    rw [List.foldl_cons]
    cases ht : truthy f.unique_flight_id with
    | false =>
      have hstep : processFlightStep jd la ts (db, n) f = (db, n) := by
        unfold processFlightStep
        simp [ht]
      rw [hstep]
      obtain ⟨h1, h2⟩ := ih db n
      refine ⟨?_, h2⟩
      rw [h1]
      simp [List.filter_cons, ht]
    | true =>
      obtain ⟨fid, hfid⟩ : ∃ fid, f.unique_flight_id = some fid := by
        cases hu : f.unique_flight_id with
        | none => rw [hu] at ht; simp [truthy] at ht
        | some v => exact ⟨v, rfl⟩
      have hstep : processFlightStep jd la ts (db, n) f =
          (save_snapshot
             ((detect_changes jd f ts db).foldl (fun d c => save_change d c la) db) f ts,
           n + (detect_changes jd f ts db).length) := by
        unfold processFlightStep
        simp [ht]
      rw [hstep]
      set changes := detect_changes jd f ts db with hch
      set db1 := changes.foldl (fun d c => save_change d c la) db with hdb1
      set db2 := save_snapshot db1 f ts with hdb2
      obtain ⟨h1, h2⟩ := ih db2 (n + changes.length)
      have hsnap2 : db2.snapshots = db.snapshots ++ [snapshotRowOf db1.nextSnapshotId fid f ts] := by
        rw [hdb2]
        unfold save_snapshot
        rw [hfid]
        simp only
        rw [hdb1, foldl_save_change_snapshots]
      have hlen2 : db2.flight_changes.length = db.flight_changes.length + changes.length := by
        rw [hdb2, save_snapshot_changes, hdb1, foldl_save_change_len]
      refine ⟨?_, ?_⟩
      · rw [h1, hsnap2]
        simp only [List.map_append, List.filter_cons, ht, List.map_cons]
        have hstrip : stripSnap (snapshotRowOf db1.nextSnapshotId fid f ts)
            = stripSnap (snapshotRowOf 0 (f.unique_flight_id.getD "") f ts) := by
          rw [hfid]
          rfl
        simp [hstrip, List.append_assoc]
      · omega

theorem process_flight_data_append (jd : String → Option ℚ) (la ts : String)
    (flights : List FlightRecord) :
    ∀ (db : DB) (n : Nat),
      (∃ t, (flights.foldl (processFlightStep jd la ts) (db, n)).1.snapshots
              = db.snapshots ++ t) ∧
      (∃ u, (flights.foldl (processFlightStep jd la ts) (db, n)).1.flight_changes
              = db.flight_changes ++ u) := by
  induction flights with
  | nil => intro db n; exact ⟨⟨[], by simp⟩, ⟨[], by simp⟩⟩
  | cons f fs ih =>
    intro db n
    rw [List.foldl_cons]
    rcases hstep : processFlightStep jd la ts (db, n) f with ⟨db2, n2⟩
    obtain ⟨⟨t, htail⟩, ⟨u, hutail⟩⟩ := ih db2 n2
    have hs : ∃ t0, db2.snapshots = db.snapshots ++ t0 := by
      unfold processFlightStep at hstep
      split at hstep
      · cases hstep; exact ⟨[], by simp⟩
      · simp only at hstep
        obtain ⟨t1, ht1⟩ := save_snapshot_append
          ((detect_changes jd f ts db).foldl (fun d c => save_change d c la) db) f ts
        rw [foldl_save_change_snapshots] at ht1
        cases hstep
        exact ⟨t1, ht1⟩
    have hc : ∃ u0, db2.flight_changes = db.flight_changes ++ u0 := by
      unfold processFlightStep at hstep
      split at hstep
      · cases hstep; exact ⟨[], by simp⟩
      · simp only at hstep
        obtain ⟨u1, hu1⟩ := foldl_save_change_append la (detect_changes jd f ts db) db
        cases hstep
        rw [save_snapshot_changes, hu1]
        exact ⟨u1, rfl⟩
    obtain ⟨t0, ht0⟩ := hs
    obtain ⟨u0, hu0⟩ := hc
    exact ⟨⟨t0 ++ t, by rw [htail, ht0, List.append_assoc]⟩,
           ⟨u0 ++ u, by rw [hutail, hu0, List.append_assoc]⟩⟩

/-- For either timestamp attribute, a change event for that attribute is
emitted exactly when both values are truthy, JULIANDAY sees a difference,
and the dedup lookup finds nothing. -/
theorem detect_time_attr_iff (jd : String → Option ℚ) (cur : FlightRecord) (ts : String)
    (db : DB) (fid : String) (previous : SnapshotRow) (attr : String)
    (pv cv : Option String)
    (hfid : cur.unique_flight_id = some fid) (hne : fid ≠ "")
    (hprev : latestSnapshotFor db fid = some previous)
    (hattr :
      (attr = "scheduled_departure_utc" ∧ pv = previous.scheduled_departure_utc ∧
        cv = cur.scheduled_departure_utc) ∨
      (attr = "estimated_departure_utc" ∧ pv = previous.estimated_departure_utc ∧
        cv = cur.estimated_departure_utc)) :
    (∃ ch ∈ detect_changes jd cur ts db, ch.attribute_changed = attr) ↔
      (truthy pv = true ∧ truthy cv = true ∧
       julianGt jd (cv.getD "") (pv.getD "") = true ∧
       dedupFound db fid attr cv = false) := by
  rw [detect_changes_blocks jd cur ts db fid previous hfid hne hprev]
  constructor
  · rintro ⟨ch, hch, hcha⟩
    rcases List.mem_append.mp hch with h12 | h3
    · rcases List.mem_append.mp h12 with h1 | h2
      · rw [mem_timeAttrChanges] at h1
        obtain ⟨ha1, ha2, ha3, ha4, ha5⟩ := h1
        rcases hattr with ⟨he, hpv2, hcv2⟩ | ⟨he, hpv2, hcv2⟩
        · subst he; subst hpv2; subst hcv2
          exact ⟨ha1, ha2, ha3, ha4⟩
        · subst ha5; rw [he] at hcha; simp at hcha
      · rw [mem_timeAttrChanges] at h2
        obtain ⟨ha1, ha2, ha3, ha4, ha5⟩ := h2
        rcases hattr with ⟨he, hpv2, hcv2⟩ | ⟨he, hpv2, hcv2⟩
        · subst ha5; rw [he] at hcha; simp at hcha
        · subst he; subst hpv2; subst hcv2
          exact ⟨ha1, ha2, ha3, ha4⟩
    · rw [mem_gateChanges] at h3
      obtain ⟨-, -, ha5⟩ := h3
      rcases hattr with ⟨he, -, -⟩ | ⟨he, -, -⟩ <;>
        (subst ha5; rw [he] at hcha; simp at hcha)
  · rintro ⟨h1, h2, h3, h4⟩
    rcases hattr with ⟨he, hpv2, hcv2⟩ | ⟨he, hpv2, hcv2⟩
    · subst he; subst hpv2; subst hcv2
      refine ⟨⟨fid, ts, previous.cycle_timestamp, "scheduled_departure_utc",
        previous.scheduled_departure_utc, cur.scheduled_departure_utc⟩, ?_, rfl⟩
      apply List.mem_append.mpr
      left
      apply List.mem_append.mpr
      left
      rw [mem_timeAttrChanges]
      exact ⟨h1, h2, h3, h4, rfl⟩
    · subst he; subst hpv2; subst hcv2
      refine ⟨⟨fid, ts, previous.cycle_timestamp, "estimated_departure_utc",
        previous.estimated_departure_utc, cur.estimated_departure_utc⟩, ?_, rfl⟩
      apply List.mem_append.mpr
      left
      apply List.mem_append.mpr
      right
      rw [mem_timeAttrChanges]
      exact ⟨h1, h2, h3, h4, rfl⟩

/-- Every emitted change carries the (truthy) flight identity of the
snapshot that produced it. -/
theorem detect_changes_uid (jd : String → Option ℚ) (cur : FlightRecord) (ts : String)
    (db : DB) (ch : ChangeDict) (h : ch ∈ detect_changes jd cur ts db) :
    cur.unique_flight_id = some ch.unique_flight_id ∧ ch.unique_flight_id ≠ "" := by
  obtain ⟨fid, previous, hfid, hne, hprev, hblk⟩ := detect_changes_mem_inv jd cur ts db ch h
  rcases hblk with h1 | h2 | h3
  · rw [mem_timeAttrChanges] at h1
    obtain ⟨-, -, -, -, ha5⟩ := h1
    subst ha5
    exact ⟨hfid, hne⟩
  · rw [mem_timeAttrChanges] at h2
    obtain ⟨-, -, -, -, ha5⟩ := h2
    subst ha5
    exact ⟨hfid, hne⟩
  · rw [mem_gateChanges] at h3
    obtain ⟨-, -, ha5⟩ := h3
    subst ha5
    exact ⟨hfid, hne⟩

theorem foldl_save_change_mem (la : String) (changes : List ChangeDict) :
    ∀ (db : DB) (c : ChangeRow),
      c ∈ (changes.foldl (fun d ch => save_change d ch la) db).flight_changes →
        c ∈ db.flight_changes ∨
          ∃ ch ∈ changes, c.unique_flight_id = ch.unique_flight_id := by
  induction changes with
  | nil => intro db c h; exact Or.inl h
  | cons x xs ih =>
    intro db c h
    rw [List.foldl_cons] at h
    rcases ih _ c h with hin | ⟨ch, hch, he⟩
    · rcases List.mem_append.mp hin with h1 | h2
      · exact Or.inl h1
      · right
        refine ⟨x, List.mem_cons_self _ _, ?_⟩
        simp only [List.mem_singleton] at h2
        subst h2
        rfl
    · exact Or.inr ⟨ch, List.mem_cons_of_mem _ hch, he⟩

theorem process_changes_uid (jd : String → Option ℚ) (la ts : String)
    (flights : List FlightRecord) :
    ∀ (db : DB) (n : Nat) (c : ChangeRow),
      c ∈ (flights.foldl (processFlightStep jd la ts) (db, n)).1.flight_changes →
        c ∈ db.flight_changes ∨ c.unique_flight_id ≠ "" := by
  induction flights with
  | nil => intro db n c h; exact Or.inl h
  | cons f fs ih =>
    intro db n c h
    rw [List.foldl_cons] at h
    rcases hstep : processFlightStep jd la ts (db, n) f with ⟨db2, n2⟩
    rw [hstep] at h
    rcases ih db2 n2 c h with hin | hne
    · unfold processFlightStep at hstep
      split at hstep
      · cases hstep; exact Or.inl hin
      · simp only at hstep
        cases hstep
        rw [save_snapshot_changes] at hin
        rcases foldl_save_change_mem la _ db c hin with h1 | ⟨ch, hch, he⟩
        · exact Or.inl h1
        · right
          obtain ⟨-, hne2⟩ := detect_changes_uid jd f ts db ch hch
          rw [he]
          exact hne2
    · exact Or.inr hne

/-! ### Concrete example data used by witnesses and counterexamples -/

/-- Example JULIANDAY table: "A" parses to day 0, "B" to day 1, anything
else is NULL. -/
def jdEx : String → Option ℚ := fun s =>
  if s = "A" then some 0 else if s = "B" then some 1 else none

/-- An example stored snapshot row for flight F1 with the given tracked
values. -/
def exRow (sched est gate : Option String) : SnapshotRow :=
  { snapshot_id := 1, unique_flight_id := "F1", cycle_timestamp := "T0",
    workspace_timestamp := "T0", flight_number := none, airline_iata := none,
    airline_name := none, scheduled_departure_utc := sched,
    estimated_departure_utc := est, departure_terminal := none,
    departure_gate := gate, status := none, destination_iata := none,
    destination_name := none, codeshare_status := none, is_operator := none,
    aircraft_model := none, aircraft_reg := none }

/-- An example incoming record for flight F1 with the given tracked
values. -/
def exCur (sched est gate : Option String) : FlightRecord :=
  { unique_flight_id := some "F1", flight_number := none, airline_iata := none,
    airline_name := none, scheduled_departure_utc := sched,
    estimated_departure_utc := est, departure_terminal := none,
    departure_gate := gate, status := none, destination_iata := none,
    destination_name := none, codeshare_status := none, is_operator := none,
    aircraft_model := none, aircraft_reg := none }

/-- An example recorded change for flight F1. -/
def exChRow (attr nv : String) : ChangeRow :=
  { change_id := 1, unique_flight_id := "F1",
    change_detected_cycle_timestamp := "T0", previous_cycle_timestamp := "TX",
    attribute_changed := attr, previous_value := "P", new_value := nv,
    change_logged_at := "L" }

/-- An example database state. -/
def exDb (rows : List SnapshotRow) (chs : List ChangeRow) : DB :=
  { snapshots := rows, flight_changes := chs, nextSnapshotId := 10, nextChangeId := 10 }

/-- Scenario: F1 was scheduled at "A", now at "B", nothing recorded yet. -/
def exDb1 : DB := exDb [exRow (some "A") none none] []

def exCur1 : FlightRecord := exCur (some "B") none none

/-- The change `detect_changes` emits in the `exDb1` scenario. -/
def exCh1 : ChangeDict :=
  ⟨"F1", "T1", "T0", "scheduled_departure_utc", some "A", some "B"⟩

/-! ### The claims -/

/-- C1: for every flight snapshot and tracked attribute, `detect_changes`
avoids duplicate change records: an emitted change event never duplicates
an already-recorded change row with the same flight identity, the same
attribute and a `new_value` equal to the current value — if such a row
existed, the dedup lookup would have suppressed the event. -/
theorem C1_dedup_no_duplicates (jd : String → Option ℚ) (cur : FlightRecord)
    (ts : String) (db : DB) (ch : ChangeDict)
    (h : ch ∈ detect_changes jd cur ts db) :
    ¬ ∃ c ∈ db.flight_changes,
        c.unique_flight_id = ch.unique_flight_id ∧
        c.attribute_changed = ch.attribute_changed ∧
        some c.new_value = ch.new_value := by
  obtain ⟨fid, previous, hfid, hne, hprev, hblk⟩ := detect_changes_mem_inv jd cur ts db ch h
  rintro ⟨c, hc, h1, h2, h3⟩
  rcases hblk with hb | hb | hb
  · rw [mem_timeAttrChanges] at hb
    obtain ⟨-, -, -, hd, he⟩ := hb
    subst he
    dsimp only at h1 h2 h3
    have hdt : dedupFound db fid "scheduled_departure_utc" (some c.new_value) = true :=
      (dedupFound_iff db fid "scheduled_departure_utc" (some c.new_value)).mpr
        ⟨c.new_value, rfl, c, hc, h1, h2, rfl⟩
    rw [← h3] at hd
    rw [hdt] at hd
    exact absurd hd (by decide)
  · rw [mem_timeAttrChanges] at hb
    obtain ⟨-, -, -, hd, he⟩ := hb
    subst he
    dsimp only at h1 h2 h3
    have hdt : dedupFound db fid "estimated_departure_utc" (some c.new_value) = true :=
      (dedupFound_iff db fid "estimated_departure_utc" (some c.new_value)).mpr
        ⟨c.new_value, rfl, c, hc, h1, h2, rfl⟩
    rw [← h3] at hd
    rw [hdt] at hd
    exact absurd hd (by decide)
  · rw [mem_gateChanges] at hb
    obtain ⟨-, hd, he⟩ := hb
    subst he
    dsimp only at h1 h2 h3
    have hdt : dedupFound db fid "departure_gate" (some c.new_value) = true :=
      (dedupFound_iff db fid "departure_gate" (some c.new_value)).mpr
        ⟨c.new_value, rfl, c, hc, h1, h2, rfl⟩
    rw [← h3] at hd
    rw [hdt] at hd
    exact absurd hd (by decide)

/-- Witness for C1 at the `exDb1` scenario. -/
theorem C1_witness :
    ¬ ∃ c ∈ exDb1.flight_changes,
        c.unique_flight_id = exCh1.unique_flight_id ∧
        c.attribute_changed = exCh1.attribute_changed ∧
        some c.new_value = exCh1.new_value :=
  C1_dedup_no_duplicates jdEx exCur1 "T1" exDb1 exCh1 (by decide)

/-- C2 (counterexample to the claim as stated): with a matching change
already recorded, the JULIANDAY difference exceeds `0.00001` and yet no
change event is emitted, so "emits if and only if the difference exceeds
the threshold" is false: the dedup lookup also gates emission. -/
theorem C2_counterexample :
    latestSnapshotFor (exDb [exRow (some "A") none none]
        [exChRow "scheduled_departure_utc" "B"]) "F1"
      = some (exRow (some "A") none none) ∧
    (exRow (some "A") none none).scheduled_departure_utc = some "A" ∧
    (exCur (some "B") none none).scheduled_departure_utc = some "B" ∧
    julianGt jdEx "B" "A" = true ∧
    detect_changes jdEx (exCur (some "B") none none) "T1"
        (exDb [exRow (some "A") none none]
          [exChRow "scheduled_departure_utc" "B"]) = [] := by
  decide

/-- C2 (amended): for non-null previous and current timestamp strings of
a tracked timestamp attribute, a change event for that attribute is
emitted if and only if the absolute difference of their JULIANDAY values
exceeds `0.00001` days AND no already-recorded change for that flight and
attribute carries the current value as `new_value`. -/
theorem C2_near_equality (jd : String → Option ℚ) (cur : FlightRecord) (ts : String)
    (db : DB) (fid : String) (previous : SnapshotRow) (attr : String)
    (pv cv : Option String) (ps cs : String) (a b : ℚ)
    (hfid : cur.unique_flight_id = some fid) (hne : fid ≠ "")
    (hprev : latestSnapshotFor db fid = some previous)
    (hattr :
      (attr = "scheduled_departure_utc" ∧ pv = previous.scheduled_departure_utc ∧
        cv = cur.scheduled_departure_utc) ∨
      (attr = "estimated_departure_utc" ∧ pv = previous.estimated_departure_utc ∧
        cv = cur.estimated_departure_utc))
    (hpv : pv = some ps) (hcv : cv = some cs)
    (hps : ps ≠ "") (hcs : cs ≠ "")
    (ha : jd ps = some a) (hb : jd cs = some b) :
    (∃ ch ∈ detect_changes jd cur ts db, ch.attribute_changed = attr) ↔
      ((1 : ℚ)/100000 < |b - a| ∧
       ¬ ∃ c ∈ db.flight_changes, c.unique_flight_id = fid ∧
           c.attribute_changed = attr ∧ c.new_value = cs) := by
  rw [detect_time_attr_iff jd cur ts db fid previous attr pv cv hfid hne hprev hattr]
  subst hpv
  subst hcv
  simp only [Option.getD_some]
  constructor
  · rintro ⟨-, -, hj, hd⟩
    constructor
    · rw [julianGt_iff] at hj
      obtain ⟨x, y, hx, hy, hlt⟩ := hj
      rw [hb] at hx
      rw [ha] at hy
      obtain rfl := Option.some.inj hx
      obtain rfl := Option.some.inj hy
      exact hlt
    · rintro ⟨c, hc, e1, e2, e3⟩
      have hdt : dedupFound db fid attr (some cs) = true :=
        (dedupFound_iff db fid attr (some cs)).mpr ⟨cs, rfl, c, hc, e1, e2, e3⟩
      rw [hdt] at hd
      exact absurd hd (by decide)
  · rintro ⟨hlt, hnd⟩
    refine ⟨by simp [truthy, hps], by simp [truthy, hcs], ?_, ?_⟩
    · rw [julianGt_iff]
      exact ⟨b, a, hb, ha, hlt⟩
    · cases hdf : dedupFound db fid attr (some cs) with
      | false => rfl
      | true =>
        rw [dedupFound_iff] at hdf
        obtain ⟨v, hv, c, hc, e1, e2, e3⟩ := hdf
        obtain rfl := Option.some.inj hv
        exact absurd ⟨c, hc, e1, e2, e3⟩ hnd

/-- Witness for the amended C2 at the `exDb1` scenario. -/
theorem C2_witness :
    (∃ ch ∈ detect_changes jdEx exCur1 "T1" exDb1,
        ch.attribute_changed = "scheduled_departure_utc") ↔
      ((1 : ℚ)/100000 < |(1 : ℚ) - 0| ∧
       ¬ ∃ c ∈ exDb1.flight_changes, c.unique_flight_id = "F1" ∧
           c.attribute_changed = "scheduled_departure_utc" ∧ c.new_value = "B") :=
  C2_near_equality jdEx exCur1 "T1" exDb1 "F1" (exRow (some "A") none none)
    "scheduled_departure_utc" (some "A") (some "B") "A" "B" 0 1
    rfl (by decide) (by decide) (Or.inl ⟨rfl, rfl, rfl⟩)
    rfl rfl (by decide) (by decide) (by decide) (by decide)

/-- C3: a gate change event is emitted exactly when the normalised
previous and current gate values differ (`None`, empty and
whitespace-only gates all normalise to missing) and the dedup lookup on
the raw current gate finds nothing; the emitted record carries the
original unnormalised previous and current gate values. -/
theorem C3_gate_normalisation (jd : String → Option ℚ) (cur : FlightRecord)
    (ts : String) (db : DB) (fid : String) (previous : SnapshotRow)
    (hfid : cur.unique_flight_id = some fid) (hne : fid ≠ "")
    (hprev : latestSnapshotFor db fid = some previous) :
    ((∃ ch ∈ detect_changes jd cur ts db, ch.attribute_changed = "departure_gate") ↔
       (normGate previous.departure_gate ≠ normGate cur.departure_gate ∧
        dedupFound db fid "departure_gate" cur.departure_gate = false)) ∧
    (∀ ch ∈ detect_changes jd cur ts db, ch.attribute_changed = "departure_gate" →
       ch.previous_value = previous.departure_gate ∧
       ch.new_value = cur.departure_gate) := by
  rw [detect_changes_blocks jd cur ts db fid previous hfid hne hprev]
  constructor
  · constructor
    · rintro ⟨ch, hch, hcha⟩
      rcases List.mem_append.mp hch with h12 | h3
      · rcases List.mem_append.mp h12 with h1 | h2
        · rw [mem_timeAttrChanges] at h1
          obtain ⟨-, -, -, -, he⟩ := h1
          subst he
          simp at hcha
        · rw [mem_timeAttrChanges] at h2
          obtain ⟨-, -, -, -, he⟩ := h2
          subst he
          simp at hcha
      · rw [mem_gateChanges] at h3
        obtain ⟨hn, hd, -⟩ := h3
        exact ⟨hn, hd⟩
    · rintro ⟨hn, hd⟩
      refine ⟨⟨fid, ts, previous.cycle_timestamp, "departure_gate",
        previous.departure_gate, cur.departure_gate⟩, ?_, rfl⟩
      apply List.mem_append.mpr
      right
      rw [mem_gateChanges]
      exact ⟨hn, hd, rfl⟩
  · intro ch hch hcha
    rcases List.mem_append.mp hch with h12 | h3
    · rcases List.mem_append.mp h12 with h1 | h2
      · rw [mem_timeAttrChanges] at h1
        obtain ⟨-, -, -, -, he⟩ := h1
        subst he
        simp at hcha
      · rw [mem_timeAttrChanges] at h2
        obtain ⟨-, -, -, -, he⟩ := h2
        subst he
        simp at hcha
    · rw [mem_gateChanges] at h3
      obtain ⟨-, -, he⟩ := h3
      subst he
      exact ⟨rfl, rfl⟩

/-- Scenario: F1 had gate "G1", now has gate "G2". -/
def exDbG : DB := exDb [exRow none none (some "G1")] []

def exCurG : FlightRecord := exCur none none (some "G2")

/-- Witness for C3 at the `exDbG` scenario. -/
theorem C3_witness :
    ((∃ ch ∈ detect_changes jdEx exCurG "T1" exDbG,
        ch.attribute_changed = "departure_gate") ↔
       (normGate (exRow none none (some "G1")).departure_gate
          ≠ normGate exCurG.departure_gate ∧
        dedupFound exDbG "F1" "departure_gate" exCurG.departure_gate = false)) ∧
    (∀ ch ∈ detect_changes jdEx exCurG "T1" exDbG,
       ch.attribute_changed = "departure_gate" →
       ch.previous_value = (exRow none none (some "G1")).departure_gate ∧
       ch.new_value = exCurG.departure_gate) :=
  C3_gate_normalisation jdEx exCurG "T1" exDbG "F1" (exRow none none (some "G1"))
    rfl (by decide) (by decide)

/-- C4 (counterexample to the claim as stated): the previous scheduled
time is missing and the current one is present, yet `detect_changes`
emits nothing — a missing-to-present transition is NOT detected, because
both values must be truthy for the JULIANDAY comparison to run. -/
theorem C4_counterexample :
    (exRow none none none).scheduled_departure_utc = none ∧
    (exCur (some "B") none none).scheduled_departure_utc = some "B" ∧
    latestSnapshotFor (exDb [exRow none none none] []) "F1"
      = some (exRow none none none) ∧
    detect_changes jdEx (exCur (some "B") none none) "T1"
      (exDb [exRow none none none] []) = [] := by
  decide

/-- C4 (amended): a timestamp change event is emitted only when both the
previous and the current value of that attribute are present and
non-empty; when either side is missing, no change event for that
attribute is emitted. -/
theorem C4_both_sides_required (jd : String → Option ℚ) (cur : FlightRecord)
    (ts : String) (db : DB) (fid : String) (previous : SnapshotRow)
    (hfid : cur.unique_flight_id = some fid) (hne : fid ≠ "")
    (hprev : latestSnapshotFor db fid = some previous) :
    ((truthy previous.scheduled_departure_utc = false ∨
        truthy cur.scheduled_departure_utc = false) →
       ∀ ch ∈ detect_changes jd cur ts db,
         ch.attribute_changed ≠ "scheduled_departure_utc") ∧
    ((truthy previous.estimated_departure_utc = false ∨
        truthy cur.estimated_departure_utc = false) →
       ∀ ch ∈ detect_changes jd cur ts db,
         ch.attribute_changed ≠ "estimated_departure_utc") := by
  constructor
  · intro hmiss ch hch hcha
    have hex : ∃ ch ∈ detect_changes jd cur ts db,
        ch.attribute_changed = "scheduled_departure_utc" := ⟨ch, hch, hcha⟩
    rw [detect_time_attr_iff jd cur ts db fid previous "scheduled_departure_utc"
      previous.scheduled_departure_utc cur.scheduled_departure_utc hfid hne hprev
      (Or.inl ⟨rfl, rfl, rfl⟩)] at hex
    obtain ⟨h1, h2, -, -⟩ := hex
    rcases hmiss with hm | hm
    · rw [h1] at hm; exact absurd hm (by decide)
    · rw [h2] at hm; exact absurd hm (by decide)
  · intro hmiss ch hch hcha
    have hex : ∃ ch ∈ detect_changes jd cur ts db,
        ch.attribute_changed = "estimated_departure_utc" := ⟨ch, hch, hcha⟩
    rw [detect_time_attr_iff jd cur ts db fid previous "estimated_departure_utc"
      previous.estimated_departure_utc cur.estimated_departure_utc hfid hne hprev
      (Or.inr ⟨rfl, rfl, rfl⟩)] at hex
    obtain ⟨h1, h2, -, -⟩ := hex
    rcases hmiss with hm | hm
    · rw [h1] at hm; exact absurd hm (by decide)
    · rw [h2] at hm; exact absurd hm (by decide)

/-- Witness for the amended C4: missing previous scheduled time. -/
theorem C4_witness :
    ((truthy (exRow none none none).scheduled_departure_utc = false ∨
        truthy (exCur (some "B") none none).scheduled_departure_utc = false) →
       ∀ ch ∈ detect_changes jdEx (exCur (some "B") none none) "T1"
           (exDb [exRow none none none] []),
         ch.attribute_changed ≠ "scheduled_departure_utc") ∧
    ((truthy (exRow none none none).estimated_departure_utc = false ∨
        truthy (exCur (some "B") none none).estimated_departure_utc = false) →
       ∀ ch ∈ detect_changes jdEx (exCur (some "B") none none) "T1"
           (exDb [exRow none none none] []),
         ch.attribute_changed ≠ "estimated_departure_utc") :=
  C4_both_sides_required jdEx (exCur (some "B") none none) "T1"
    (exDb [exRow none none none] []) "F1" (exRow none none none)
    rfl (by decide) (by decide)

/-- C5: every change event compares against the most recent prior
snapshot for the flight identity — the stored row with the highest
`snapshot_id` for that `unique_flight_id` — and carries that row's
`cycle_timestamp` as `previous_cycle_timestamp` and that row's value of
the changed attribute as `previous_value`. -/
theorem C5_previous_from_latest (jd : String → Option ℚ) (cur : FlightRecord)
    (ts : String) (db : DB) (ch : ChangeDict)
    (h : ch ∈ detect_changes jd cur ts db) :
    ∃ fid previous, cur.unique_flight_id = some fid ∧
      latestSnapshotFor db fid = some previous ∧
      previous ∈ db.snapshots ∧ previous.unique_flight_id = fid ∧
      (∀ s ∈ db.snapshots, s.unique_flight_id = fid →
        s.snapshot_id ≤ previous.snapshot_id) ∧
      ch.previous_cycle_timestamp = previous.cycle_timestamp ∧
      ((ch.attribute_changed = "scheduled_departure_utc" ∧
          ch.previous_value = previous.scheduled_departure_utc) ∨
       (ch.attribute_changed = "estimated_departure_utc" ∧
          ch.previous_value = previous.estimated_departure_utc) ∨
       (ch.attribute_changed = "departure_gate" ∧
          ch.previous_value = previous.departure_gate)) := by
  obtain ⟨fid, previous, hfid, hne, hprev, hblk⟩ := detect_changes_mem_inv jd cur ts db ch h
  obtain ⟨hmem, huid, hmax⟩ := latestSnapshotFor_spec db fid previous hprev
  have hfin : ch.previous_cycle_timestamp = previous.cycle_timestamp ∧
      ((ch.attribute_changed = "scheduled_departure_utc" ∧
          ch.previous_value = previous.scheduled_departure_utc) ∨
       (ch.attribute_changed = "estimated_departure_utc" ∧
          ch.previous_value = previous.estimated_departure_utc) ∨
       (ch.attribute_changed = "departure_gate" ∧
          ch.previous_value = previous.departure_gate)) := by
    rcases hblk with hb | hb | hb
    · rw [mem_timeAttrChanges] at hb
      obtain ⟨-, -, -, -, he⟩ := hb
      subst he
      exact ⟨rfl, Or.inl ⟨rfl, rfl⟩⟩
    · rw [mem_timeAttrChanges] at hb
      obtain ⟨-, -, -, -, he⟩ := hb
      subst he
      exact ⟨rfl, Or.inr (Or.inl ⟨rfl, rfl⟩)⟩
    · rw [mem_gateChanges] at hb
      obtain ⟨-, -, he⟩ := hb
      subst he
      exact ⟨rfl, Or.inr (Or.inr ⟨rfl, rfl⟩)⟩
  exact ⟨fid, previous, hfid, hprev, hmem, huid, hmax, hfin.1, hfin.2⟩

/-- Witness for C5 at the `exDb1` scenario. -/
theorem C5_witness :
    ∃ fid previous, exCur1.unique_flight_id = some fid ∧
      latestSnapshotFor exDb1 fid = some previous ∧
      previous ∈ exDb1.snapshots ∧ previous.unique_flight_id = fid ∧
      (∀ s ∈ exDb1.snapshots, s.unique_flight_id = fid →
        s.snapshot_id ≤ previous.snapshot_id) ∧
      exCh1.previous_cycle_timestamp = previous.cycle_timestamp ∧
      ((exCh1.attribute_changed = "scheduled_departure_utc" ∧
          exCh1.previous_value = previous.scheduled_departure_utc) ∨
       (exCh1.attribute_changed = "estimated_departure_utc" ∧
          exCh1.previous_value = previous.estimated_departure_utc) ∨
       (exCh1.attribute_changed = "departure_gate" ∧
          exCh1.previous_value = previous.departure_gate)) :=
  C5_previous_from_latest jdEx exCur1 "T1" exDb1 exCh1 (by decide)

/-- C6: a snapshot with a missing or empty `unique_flight_id`, and the
first appearance of a flight (no stored snapshot with its identity),
produce no change events: the first snapshot only establishes the
baseline. -/
theorem C6_baseline_no_changes (jd : String → Option ℚ) (cur : FlightRecord)
    (ts : String) (db : DB)
    (h : cur.unique_flight_id = none ∨ cur.unique_flight_id = some "" ∨
         ∃ fid, cur.unique_flight_id = some fid ∧
           ∀ s ∈ db.snapshots, s.unique_flight_id ≠ fid) :
    detect_changes jd cur ts db = [] := by
  rcases h with h | h | ⟨fid, hfid, hnone⟩
  · unfold detect_changes
    rw [h]
    simp [truthy]
  · unfold detect_changes
    rw [h]
    simp [truthy]
  · unfold detect_changes
    rw [hfid]
    by_cases hne : fid = ""
    · subst hne
      simp [truthy]
    · have ht : truthy (some fid) = true := by simpa [truthy] using hne
      simp only [ht, Bool.not_true, Bool.false_eq_true, if_false, Option.getD_some]
      rw [latestSnapshotFor_none db fid hnone]

/-- Witness for C6: a flight with no stored snapshot. -/
theorem C6_witness :
    detect_changes jdEx (exCur none none none) "T1" (exDb [] []) = [] :=
  C6_baseline_no_changes jdEx (exCur none none none) "T1" (exDb [] [])
    (Or.inr (Or.inr ⟨"F1", rfl, by simp [exDb]⟩))

/-- C7: `process_flight_data` always saves a snapshot for every record
with a truthy `unique_flight_id` (keyed by that identity and the cycle
timestamp), skips records without one entirely — no snapshot row, and
every change row it adds belongs to a truthy flight identity — and
returns the number of change records it saved. -/
theorem C7_snapshots_always_saved (jd : String → Option ℚ) (la : String) (db : DB)
    (flights : List FlightRecord) (ts : String) :
    (process_flight_data jd la db flights ts).1.snapshots.map stripSnap
        = db.snapshots.map stripSnap
          ++ (flights.filter (fun f => truthy f.unique_flight_id)).map
               (fun f => stripSnap (snapshotRowOf 0 (f.unique_flight_id.getD "") f ts)) ∧
    db.flight_changes.length + (process_flight_data jd la db flights ts).2
        = (process_flight_data jd la db flights ts).1.flight_changes.length ∧
    ∀ c ∈ (process_flight_data jd la db flights ts).1.flight_changes,
      c ∈ db.flight_changes ∨ c.unique_flight_id ≠ "" := by
  obtain ⟨h1, h2⟩ := process_flight_data_spec jd la ts flights db 0
  have h2e : (process_flight_data jd la db flights ts).2 + db.flight_changes.length
      = 0 + (process_flight_data jd la db flights ts).1.flight_changes.length := h2
  refine ⟨h1, by omega, ?_⟩
  intro c hc
  exact process_changes_uid jd la ts flights db 0 c hc

/-- C8: the monitoring pipeline is append-only on both tables — each
operation returns a database whose `flight_snapshots` and
`flight_changes` extend the previous contents, never updating or deleting
an existing row. -/
theorem C8_append_only (jd : String → Option ℚ) (la ts cycle_ts : String) (db : DB)
    (f : FlightRecord) (ch : ChangeDict) (flights : List FlightRecord)
    (commitOk : Bool) :
    (∃ t, (save_snapshot db f ts).snapshots = db.snapshots ++ t) ∧
    (save_snapshot db f ts).flight_changes = db.flight_changes ∧
    (save_change db ch la).snapshots = db.snapshots ∧
    (∃ t, (save_change db ch la).flight_changes = db.flight_changes ++ t) ∧
    (detect_changesOp jd f ts db).1 = db ∧
    (∃ t, (process_flight_data jd la db flights ts).1.snapshots = db.snapshots ++ t) ∧
    (∃ t, (process_flight_data jd la db flights ts).1.flight_changes
            = db.flight_changes ++ t) ∧
    (∃ t, (run_monitor_cycle jd la db flights cycle_ts commitOk).1.snapshots
            = db.snapshots ++ t) ∧
    (∃ t, (run_monitor_cycle jd la db flights cycle_ts commitOk).1.flight_changes
            = db.flight_changes ++ t) := by
  refine ⟨save_snapshot_append db f ts, save_snapshot_changes db f ts, rfl,
    ⟨_, rfl⟩, ?_, ?_, ?_, ?_, ?_⟩
  · rw [detect_changesOp_eq]
  · exact (process_flight_data_append jd la ts flights db 0).1
  · exact (process_flight_data_append jd la ts flights db 0).2
  · unfold run_monitor_cycle
    dsimp only
    split
    · exact ⟨[], by simp⟩
    · split
      · exact (process_flight_data_append jd la cycle_ts flights db 0).1
      · exact ⟨[], by simp⟩
  · unfold run_monitor_cycle
    dsimp only
    split
    · exact ⟨[], by simp⟩
    · split
      · exact (process_flight_data_append jd la cycle_ts flights db 0).2
      · exact ⟨[], by simp⟩

/-- C9: `detect_changes` never modifies the database — the sequence of
SQL statements it executes (modelled by `detect_changesOp`) returns the
database component unchanged; all writes go through `save_change` and
`save_snapshot`. -/
theorem C9_detect_readonly (jd : String → Option ℚ) (cur : FlightRecord)
    (ts : String) (db : DB) :
    (detect_changesOp jd cur ts db).1 = db := by
  rw [detect_changesOp_eq]

/-- Example parsed time with a utc value. -/
def exTimeS : TimeInfo := { utc := some "S", localTime := none }

/-- Example parsed time whose utc field is missing. -/
def exTimeNone : TimeInfo := { utc := none, localTime := none }

/-- Example parsed time with a revised utc value. -/
def exTimeR : TimeInfo := { utc := some "R", localTime := none }

/-- An example movement with the given revised-time object. -/
def exMov (revised : Option TimeInfo) : MovementInfo :=
  { airport := none, scheduledTime := some exTimeS, revisedTime := revised,
    terminal := none, gate := none }

/-- A departure with the given movement. -/
def exDepOf (mov : Option MovementInfo) : Departure :=
  { movement := mov, number := none, status := none, codeshareStatus := none,
    aircraft := none, airline := none }

/-- A departure whose movement has a scheduled time but whose revised
time object is present with a missing utc value. -/
def exDep10 : Departure := exDepOf (some (exMov (some exTimeNone)))

/-- A departure with a scheduled time and no revised time object. -/
def exDepA : Departure := exDepOf (some (exMov none))

/-- A departure with a scheduled time and a revised time carrying a utc
value. -/
def exDepB : Departure := exDepOf (some (exMov (some exTimeR)))

def strfEx : String → String := fun _ => "20250101"

/-- C10 (counterexample to the claim as stated): when the revised-time
object is present but its utc value is missing, the produced record has a
present `scheduled_departure_utc` and an absent `estimated_departure_utc`
— so "whenever scheduled is present, estimated is present" fails. -/
theorem C10_counterexample :
    (save_data_record strfEx "W" exDep10).scheduled_departure_utc = some "S" ∧
    (save_data_record strfEx "W" exDep10).estimated_departure_utc = none := by
  decide

/-- C10 (amended): if the revised-time object is missing, the record's
`estimated_departure_utc` equals its `scheduled_departure_utc`; hence
whenever `scheduled_departure_utc` is present and any present
revised-time object carries a utc value, `estimated_departure_utc` is
present. -/
theorem C10_estimated_fallback (strf : String → String) (ws : String)
    (flight : Departure) :
    (flight.movement.bind (fun m => m.revisedTime) = none →
       (save_data_record strf ws flight).estimated_departure_utc
         = (save_data_record strf ws flight).scheduled_departure_utc) ∧
    ((save_data_record strf ws flight).scheduled_departure_utc.isSome = true →
      (∀ rt, flight.movement.bind (fun m => m.revisedTime) = some rt →
        rt.utc.isSome = true) →
      (save_data_record strf ws flight).estimated_departure_utc.isSome = true) := by
  unfold save_data_record
  dsimp only
  cases hrev : flight.movement.bind (fun m => m.revisedTime) with
  | none =>
    constructor
    · intro _
      rfl
    · intro hs _
      exact hs
  | some rt =>
    constructor
    · intro hcon
      exact absurd hcon (by simp)
    · intro hs hrt
      exact hrt rt rfl

/-- Witness for the amended C10 at two concrete departures. -/
theorem C10_witness :
    (save_data_record strfEx "W" exDepA).estimated_departure_utc
        = (save_data_record strfEx "W" exDepA).scheduled_departure_utc ∧
    (save_data_record strfEx "W" exDepB).estimated_departure_utc.isSome = true :=
  ⟨(C10_estimated_fallback strfEx "W" exDepA).1 rfl,
   (C10_estimated_fallback strfEx "W" exDepB).2 (by decide)
     (by
       intro rt hrt
       have h2 : (some exTimeR : Option TimeInfo) = some rt := hrt
       obtain rfl := Option.some.inj h2
       rfl)⟩

end FlightMonitor
